import Mathlib

/-!
Verification of the session / retry / error-mapping core of the nerve email
SDK (src/sdk/python/nerve_email/client.py and exceptions.py).

The client is embedded shallowly: the HTTP transport is an oracle list of
responses consumed one per POST (an empty list models a network failure), the
mutable client object becomes an explicit state record, and the cooperative
recursion through session re-establishment is bounded by an explicit fuel
parameter (an out-of-fuel marker distinct from every real outcome).
-/

namespace NerveEmail

/-- Python truthiness of the optional session string, as used in
the checks of client.py (an empty string is falsy). -/
def truthyStr : Option String → Bool
  | none => false
  | some s => s != ""

/-- Parsed JSON-RPC error object: numeric code, message, and the optional
retry-after hint found under data.retry_after_seconds. -/
structure RpcError where
  code : Int
  message : String
  retryAfterSeconds : Option Nat
deriving Repr, DecidableEq

/-- Parsed JSON-RPC response body; error is none when the field is absent or
falsy, and result holds the (opaque) result value when present. -/
structure RpcData where
  error : Option RpcError
  result : Option String
deriving Repr, DecidableEq

/-- An HTTP response from the /mcp endpoint: status code, the optional
MCP-Session-Id response header, and the parsed JSON body. -/
structure HttpResponse where
  status : Nat
  sessionHeader : Option String
  body : RpcData
deriving Repr, DecidableEq

/-- The exception taxonomy of exceptions.py; transportError stands for a
network-level httpx exception (no HTTP response at all). -/
inductive NerveErr where
  | authError (msg : String)
  | sessionError (msg : String)
  | rateLimitError (msg : String) (retryAfter : Nat)
  | quotaError (msg : String)
  | subscriptionError (msg : String)
  | nerveError (msg : String) (code : Int)
  | transportError
deriving Repr, DecidableEq

/-- Outcome of one embedded call: a value, a raised exception, or the
out-of-fuel marker of the embedding. -/
inductive RpcResult where
  | ok (value : Option String)
  | err (e : NerveErr)
  | outOfFuel
deriving Repr, DecidableEq

/-- One POST to /mcp that was answered: the body fields that vary per logical
call (sequence id, method, params) plus the MCP-Session-Id request header. -/
structure SentRequest where
  reqId : Nat
  method : String
  params : String
  sessionHeader : Option String
deriving Repr, DecidableEq

/-- The mutable state of a NerveClient: cached session id and the
per-instance sequence-id counter. -/
structure ClientState where
  sessionId : Option String
  requestId : Nat
deriving Repr, DecidableEq

/-- Result record of an embedded call: outcome, final client state, responses
not yet consumed, the log of answered POSTs, and the log of back-off sleeps. -/
structure RpcOutcome where
  result : RpcResult
  state : ClientState
  remaining : List HttpResponse
  sent : List SentRequest
  sleeps : List Nat
deriving Repr, DecidableEq

/-- Client configuration: the max_retries constructor argument. -/
structure Config where
  maxRetries : Nat
deriving Repr, DecidableEq

/-- needle is an initial segment of hay. -/
def leadsWith : List Char → List Char → Bool
  | [], _ => true
  | _ :: _, [] => false
  | a :: as, b :: bs => a == b && leadsWith as bs

/-- needle occurs as a contiguous run inside hay. -/
def hasSub (needle : List Char) : List Char → Bool
  | [] => leadsWith needle []
  | hay@(_ :: rest) => leadsWith needle hay || hasSub needle rest

/-- The session-expiry text heuristic of client.py line 173: a
case-insensitive substring match for "session" in the error message
(lowercasing applied per character, as String.toLower does). -/
def mentionsSession (msg : String) : Bool :=
  hasSub "session".toList (msg.toList.map Char.toLower)

/-- The classification of a structured error, one case per arm of the
dispatch chain at client.py lines 162-180. -/
inductive ErrClass where
  | rateLimited (msg : String) (retryAfter : Nat)
  | quotaExceeded (msg : String)
  | subscriptionInactive (msg : String)
  | sessionExpired
  | generic (msg : String) (code : Int)
deriving Repr, DecidableEq

/-- The dispatch chain of client.py lines 162-180 as a pure function of the
error's code, message, and retry-after data. -/
def classifyError (e : RpcError) : ErrClass :=
  if e.code == -32042 then .rateLimited e.message (e.retryAfterSeconds.getD 2)
  else if e.code == -32040 then .quotaExceeded e.message
  else if e.code == -32041 then .subscriptionInactive e.message
  else if e.code == -32000 && mentionsSession e.message then .sessionExpired
  else .generic e.message e.code

/-- The session-header capture of client.py lines 153-154: only on an
establishment call, and only when the response carries the header. -/
def captureSession (method : String) (resp : HttpResponse) (st : ClientState) :
    ClientState :=
  if method == "initialize" then
    match resp.sessionHeader with
    | some h => { st with sessionId := some h }
    | none => st
  else st

/-- next_id (client.py lines 117-119): increment the counter and return it. -/
def nextId (st : ClientState) : Nat × ClientState :=
  (st.requestId + 1, { st with requestId := st.requestId + 1 })

/-- The ids handed out by m successive next_id calls. -/
def idsFrom (st : ClientState) : Nat → List Nat
  | 0 => []
  | m + 1 => (nextId st).1 :: idsFrom (nextId st).2 m

/-- The params payload of the establishment call (clientInfo and
protocolVersion of client.py lines 107-113), kept opaque. -/
def initParams : String := "clientInfo;protocolVersion=2025-11-25"

/-- The set of tools that are never retried (client.py line 43). -/
def nonIdempotentTools : List String := ["send_reply"]

mutual

/-- The attempt loop of the rpc method (client.py lines 142-184), one recursive
step per loop iteration, with attemptsLeft = max_attempts - attempt.  The
request body (reqId, method, params) is fixed before the loop; sessionHdr is
the local headers dict, rewritten by the session-recovery branch. -/
def rpcAttempts (cfg : Config) (fuel : Nat) (st : ClientState)
    (method params : String) (allowRetry : Bool) (reqId : Nat)
    (sessionHdr : Option String) (attemptsLeft : Nat)
    (responses : List HttpResponse) : RpcOutcome :=
  match fuel with
  | 0 => ⟨.outOfFuel, st, responses, [], []⟩
  | fuel + 1 =>
    match attemptsLeft with
    | 0 => ⟨.err (.nerveError "Max retries exceeded" 0), st, responses, [], []⟩
    | attemptsLeft + 1 =>
      match responses with
      | [] => ⟨.err .transportError, st, [], [], []⟩
      | resp :: rest =>
        let sentReq : SentRequest := ⟨reqId, method, params, sessionHdr⟩
        if resp.status == 401 then
          ⟨.err (.authError "Authentication failed -- check API key or token"),
            st, rest, [sentReq], []⟩
        else if resp.status == 403 then
          ⟨.err (.authError "Forbidden -- check API key scopes"),
            st, rest, [sentReq], []⟩
        else
          let st1 := captureSession method resp st
          match resp.body.error with
          | none => ⟨.ok resp.body.result, st1, rest, [sentReq], []⟩
          | some e =>
            match classifyError e with
            | .rateLimited msg retryAfter =>
              if allowRetry && attemptsLeft != 0 then
                let out := rpcAttempts cfg fuel st1 method params allowRetry
                  reqId sessionHdr attemptsLeft rest
                ⟨out.result, out.state, out.remaining, sentReq :: out.sent,
                  retryAfter :: out.sleeps⟩
              else
                ⟨.err (.rateLimitError msg retryAfter), st1, rest, [sentReq], []⟩
            | .quotaExceeded msg =>
              ⟨.err (.quotaError msg), st1, rest, [sentReq], []⟩
            | .subscriptionInactive msg =>
              ⟨.err (.subscriptionError msg), st1, rest, [sentReq], []⟩
            | .sessionExpired =>
              let st2 := { st1 with sessionId := none }
              let ens := ensureSession cfg fuel st2 rest
              match ens.result with
              | .ok _ =>
                let out := rpcAttempts cfg fuel ens.state method params
                  allowRetry reqId ens.state.sessionId attemptsLeft ens.remaining
                ⟨out.result, out.state, out.remaining,
                  sentReq :: (ens.sent ++ out.sent), ens.sleeps ++ out.sleeps⟩
              | .err e2 =>
                ⟨.err e2, ens.state, ens.remaining, sentReq :: ens.sent, ens.sleeps⟩
              | .outOfFuel =>
                ⟨.outOfFuel, ens.state, ens.remaining, sentReq :: ens.sent, ens.sleeps⟩
            | .generic msg code =>
              ⟨.err (.nerveError msg code), st1, rest, [sentReq], []⟩

/-- The rpc method (client.py lines 121-184): assign the sequence id once,
build the body once, attach the currently cached session header, then run the
attempt loop. -/
def rpc (cfg : Config) (fuel : Nat) (st : ClientState) (method params : String)
    (allowRetry : Bool) (responses : List HttpResponse) : RpcOutcome :=
  match fuel with
  | 0 => ⟨.outOfFuel, st, responses, [], []⟩
  | fuel + 1 =>
    let st1 := (nextId st).2
    let hdr : Option String := if truthyStr st.sessionId then st.sessionId else none
    let maxAttempts := if allowRetry then cfg.maxRetries + 1 else 1
    rpcAttempts cfg fuel st1 method params allowRetry (nextId st).1 hdr
      maxAttempts responses

/-- The ensure-session method (client.py lines 95-115).  Sequentially the lock
is uncontended, so the pre-check and the double-check after acquisition see
the same state and collapse into one; the concurrent interleavings are
modelled separately below. -/
def ensureSession (cfg : Config) (fuel : Nat) (st : ClientState)
    (responses : List HttpResponse) : RpcOutcome :=
  match fuel with
  | 0 => ⟨.outOfFuel, st, responses, [], []⟩
  | fuel + 1 =>
    if truthyStr st.sessionId then ⟨.ok none, st, responses, [], []⟩
    else
      let out := rpc cfg fuel st "initialize" initParams true responses
      match out.result with
      | .ok _ =>
        if truthyStr out.state.sessionId then
          ⟨.ok none, out.state, out.remaining, out.sent, out.sleeps⟩
        else
          ⟨.err (.sessionError "Server did not return MCP-Session-Id"),
            out.state, out.remaining, out.sent, out.sleeps⟩
      | r => ⟨r, out.state, out.remaining, out.sent, out.sleeps⟩

end

/-- The tool-call params payload (name and arguments), kept opaque. -/
def toolParams (name arguments : String) : String := name ++ ";" ++ arguments

/-- The call-tool method (client.py lines 186-198): ensure a session, then
invoke tools/call, with retry permitted only for idempotent tools. -/
def callTool (cfg : Config) (fuel : Nat) (st : ClientState) (name : String)
    (arguments : String) (responses : List HttpResponse) : RpcOutcome :=
  let ens := ensureSession cfg fuel st responses
  match ens.result with
  | .ok _ =>
    let allowRetry := !(nonIdempotentTools.contains name)
    let out := rpc cfg fuel ens.state "tools/call" (toolParams name arguments)
      allowRetry ens.remaining
    ⟨out.result, out.state, out.remaining, ens.sent ++ out.sent,
      ens.sleeps ++ out.sleeps⟩
  | _ => ens

/-- The health-check method (client.py lines 204-214): swallow every raised
exception into False; none marks only the embedding's out-of-fuel artefact. -/
def healthCheck (cfg : Config) (fuel : Nat) (st : ClientState)
    (responses : List HttpResponse) : Option Bool × ClientState :=
  let ens := ensureSession cfg fuel st responses
  match ens.result with
  | .ok _ => (some true, ens.state)
  | .err _ => (some false, ens.state)
  | .outOfFuel => (none, ens.state)

/-- Decidable test: the response is a structured rate-limit error
delivered with a non-auth HTTP status. -/
def isRateLimitedResp (r : HttpResponse) : Bool :=
  !(r.status == 401) && !(r.status == 403) &&
    (match r.body.error with
     | some e => e.code == -32042
     | none => false)

/-- The message of the structured error of a response (empty if none). -/
def errMsgOf (r : HttpResponse) : String :=
  match r.body.error with
  | some e => e.message
  | none => ""

/-- The retry-after value the client reads off a response
(data.retry_after_seconds with default 2). -/
def retryAfterOf (r : HttpResponse) : Nat :=
  match r.body.error with
  | some e => e.retryAfterSeconds.getD 2
  | none => 2

/-- The immediately raised exception (if any) determined by an error class:
rate limiting may instead back off and session expiry triggers recovery. -/
def raisedOf : ErrClass → Option NerveErr
  | .quotaExceeded m => some (.quotaError m)
  | .subscriptionInactive m => some (.subscriptionError m)
  | .generic m c => some (.nerveError m c)
  | _ => none

/-!
Concurrent model of ensure-session (client.py lines 95-115).  Under asyncio,
code between awaits runs atomically; the await points of ensure-session are
the lock acquisition and the establishment round trip, giving each coroutine
four phases.  The lock acquisition, the double-check it guards, and (on a
hit) the immediately following return that releases the lock form one atomic
step, as does the check-before-lock; the establishment round trip suspends
while holding the lock.
-/

/-- Phase of one coroutine running ensure-session. -/
inductive Pc where
  | start
  | wantLock
  | establishing
  | done (observed : Option String)
deriving Repr, DecidableEq

/-- Shared state of n coroutines contending on one client: cached session,
lock owner, each coroutine's phase, and the number of establishment round
trips completed. -/
structure ConcState (n : Nat) where
  sessionId : Option String
  lockHeld : Option (Fin n)
  pcs : Fin n → Pc
  establishCount : Nat

/-- One interleaving step: some coroutine advances by one atomic phase.
sid is the identifier the server issues on the establishment round trip. -/
inductive Step (n : Nat) (sid : String) : ConcState n → ConcState n → Prop where
  | checkHit (i : Fin n) (s : ConcState n) :
      s.pcs i = .start → truthyStr s.sessionId = true →
      Step n sid s { s with pcs := Function.update s.pcs i (.done s.sessionId) }
  | checkMiss (i : Fin n) (s : ConcState n) :
      s.pcs i = .start → truthyStr s.sessionId = false →
      Step n sid s { s with pcs := Function.update s.pcs i .wantLock }
  | acquireHit (i : Fin n) (s : ConcState n) :
      s.pcs i = .wantLock → s.lockHeld = none → truthyStr s.sessionId = true →
      Step n sid s { s with pcs := Function.update s.pcs i (.done s.sessionId) }
  | acquireMiss (i : Fin n) (s : ConcState n) :
      s.pcs i = .wantLock → s.lockHeld = none → truthyStr s.sessionId = false →
      Step n sid s { s with pcs := Function.update s.pcs i .establishing,
                            lockHeld := some i }
  | completeEstablish (i : Fin n) (s : ConcState n) :
      s.pcs i = .establishing →
      Step n sid s { s with pcs := Function.update s.pcs i (.done (some sid)),
                            sessionId := some sid,
                            lockHeld := none,
                            establishCount := s.establishCount + 1 }

/-- Initial state: no session, lock free, everyone about to call
ensure-session, no establishment performed yet. -/
def initConc (n : Nat) : ConcState n :=
  ⟨none, none, fun _ => .start, 0⟩

/-- Inductive invariant of the concurrent ensure-session model. -/
def ConcInv (n : Nat) (sid : String) (s : ConcState n) : Prop :=
  ((s.establishCount = 0 ∧ s.sessionId = none) ∨
    (s.establishCount = 1 ∧ s.sessionId = some sid)) ∧
  (∀ i, s.pcs i = .establishing → s.lockHeld = some i ∧ s.sessionId = none) ∧
  (∀ i obs, s.pcs i = .done obs → obs = some sid ∧ s.sessionId = some sid)

/-! ### Helper lemmas -/

theorem idsFrom_eq_range' : ∀ (m : Nat) (st : ClientState),
    idsFrom st m = List.range' (st.requestId + 1) m := by
  intro m
  induction m with
  | zero => intro st; rfl
  | succ m ih =>
    intro st
    simp only [idsFrom, nextId, ih, List.range'_succ]

/-! ### Claim theorems -/

/-- C7: for any number M of sequence-id assignments on one client instance
the assigned ids are pairwise distinct and strictly increasing in assignment
order (they are the consecutive range above the current counter), and a later
batch of K assignments continues strictly above the first M, so no id is ever
reused. -/
theorem sequenceIdUniqueness (st : ClientState) (M K : Nat) :
    (idsFrom st M).Pairwise (· < ·) ∧
    idsFrom st M = List.range' (st.requestId + 1) M ∧
    idsFrom st (M + K) =
      idsFrom st M ++ idsFrom { st with requestId := st.requestId + M } K := by
  refine ⟨?_, idsFrom_eq_range' M st, ?_⟩
  · rw [idsFrom_eq_range']
    exact List.pairwise_lt_range' _ _
  · rw [idsFrom_eq_range', idsFrom_eq_range', idsFrom_eq_range']
    show List.range' (st.requestId + 1) (M + K) =
      List.range' (st.requestId + 1) M ++ List.range' (st.requestId + M + 1) K
    have harg : st.requestId + 1 + M = st.requestId + M + 1 := by omega
    have hswap : M + K = K + M := by omega
    rw [hswap, ← List.range'_append_1, harg]

/-- C8: the readiness probe is total: whenever session establishment runs to
an outcome (the out-of-fuel artefact aside), the probe reports a Boolean
rather than propagating the raised error -- true exactly when establishment
succeeds and false exactly when it raises any failure (network error, auth
failure, fatal remote error alike). -/
theorem readinessProbeTotal (cfg : Config) (fuel : Nat) (st : ClientState)
    (rs : List HttpResponse) :
    ((healthCheck cfg fuel st rs).1 = some true ↔
      ∃ v, (ensureSession cfg fuel st rs).result = .ok v) ∧
    ((healthCheck cfg fuel st rs).1 = some false ↔
      ∃ e, (ensureSession cfg fuel st rs).result = .err e) := by
  unfold healthCheck
  rcases h : (ensureSession cfg fuel st rs).result with v | e | _ <;> simp [h]

/-- C4: every structured error maps to exactly one variant, as a pure function
of the numeric code plus -- for session expiry only -- a case-insensitive
substring match for "session" in the message: -32042 to rate-limited with the
retry-after hint, -32040 to quota-exceeded, -32041 to subscription-inactive,
-32000 with a session-mentioning message to session-expiry recovery, and any
other code to the generic failure carrying code and message; moreover
quota-exceeded and subscription-inactive are raised on first occurrence after
exactly one round trip, with the rest of the response oracle untouched. -/
theorem errorTaxonomyMapping :
    (∀ e : RpcError, e.code = -32042 →
      classifyError e = .rateLimited e.message (e.retryAfterSeconds.getD 2)) ∧
    (∀ e : RpcError, e.code = -32040 →
      classifyError e = .quotaExceeded e.message) ∧
    (∀ e : RpcError, e.code = -32041 →
      classifyError e = .subscriptionInactive e.message) ∧
    (∀ e : RpcError, e.code = -32000 → mentionsSession e.message = true →
      classifyError e = .sessionExpired) ∧
    (∀ e : RpcError, e.code ≠ -32042 → e.code ≠ -32040 → e.code ≠ -32041 →
      (e.code = -32000 → mentionsSession e.message = false) →
      classifyError e = .generic e.message e.code) ∧
    (∀ (cfg : Config) (fuel : Nat) (st : ClientState) (method params : String)
        (allowRetry : Bool) (reqId aL : Nat) (hdr : Option String)
        (resp : HttpResponse) (rest : List HttpResponse) (e : RpcError)
        (m : String),
      resp.status ≠ 401 → resp.status ≠ 403 → resp.body.error = some e →
      (classifyError e = .quotaExceeded m ∨
        classifyError e = .subscriptionInactive m) →
      rpcAttempts cfg (fuel + 1) st method params allowRetry reqId hdr (aL + 1)
          (resp :: rest) =
        ⟨.err (if classifyError e = .quotaExceeded m then .quotaError m
               else .subscriptionError m),
          captureSession method resp st, rest,
          [⟨reqId, method, params, hdr⟩], []⟩) := by
  refine ⟨?_, ?_, ?_, ?_, ?_, ?_⟩
  · intro e h; simp [classifyError, h]
  · intro e h; simp [classifyError, h]
  · intro e h; simp [classifyError, h]
  · intro e h hm; simp [classifyError, h, hm]
  · intro e h1 h2 h3 h4
    by_cases h0 : e.code = -32000
    · simp [classifyError, h1, h2, h3, h0, h4 h0]
    · simp [classifyError, h1, h2, h3, h0]
  · intro cfg fuel st method params allowRetry reqId aL hdr resp rest e m
      h401 h403 hbody hcls
    have e401 : (resp.status == 401) = false := by simp [h401]
    have e403 : (resp.status == 403) = false := by simp [h403]
    rcases hcls with h | h <;>
      simp [rpcAttempts, e401, e403, hbody, h]

/-- Witness for C4 at concrete errors and a concrete quota response. -/
theorem errorTaxonomyMapping_witness :
    classifyError ⟨-32042, "Rate limited", some 5⟩ = .rateLimited "Rate limited" 5 ∧
    classifyError ⟨-32040, "Quota exceeded", none⟩ = .quotaExceeded "Quota exceeded" ∧
    classifyError ⟨-32041, "Subscription inactive", none⟩ =
      .subscriptionInactive "Subscription inactive" ∧
    classifyError ⟨-32000, "SESSION expired", none⟩ = .sessionExpired ∧
    classifyError ⟨-32000, "backend exploded", none⟩ =
      .generic "backend exploded" (-32000) ∧
    rpcAttempts ⟨3⟩ 1 ⟨some "s", 5⟩ "tools/call" "p" true 6 (some "s") 4
        [⟨200, none, ⟨some ⟨-32040, "Quota exceeded", none⟩, none⟩⟩] =
      ⟨.err (.quotaError "Quota exceeded"), ⟨some "s", 5⟩, [],
        [⟨6, "tools/call", "p", some "s"⟩], []⟩ := by
  have h := errorTaxonomyMapping
  refine ⟨h.1 _ rfl, h.2.1 _ rfl, h.2.2.1 _ rfl, h.2.2.2.1 _ rfl (by decide),
    h.2.2.2.2.1 _ (by decide) (by decide) (by decide) (fun hx => by decide), ?_⟩
  have h6 := h.2.2.2.2.2 ⟨3⟩ 0 ⟨some "s", 5⟩ "tools/call" "p" true 6 3
    (some "s") ⟨200, none, ⟨some ⟨-32040, "Quota exceeded", none⟩, none⟩⟩ []
    ⟨-32040, "Quota exceeded", none⟩ "Quota exceeded"
    (by decide) (by decide) rfl (Or.inl (by decide))
  simpa using h6

/-- C5: an unauthorized or forbidden HTTP status raises the auth failure
immediately: exactly one request is sent, nothing is retried whatever the
idempotency flag, the remaining oracle is untouched, and the conclusion is
independent of the response body -- which is universally quantified, so it
holds even when the body would parse as a structured success or a retryable
error. -/
theorem authShortCircuit (cfg : Config) (fuel : Nat) (st : ClientState)
    (method params : String) (allowRetry : Bool) (resp : HttpResponse)
    (rest : List HttpResponse)
    (h : resp.status = 401 ∨ resp.status = 403) :
    ∃ msg, rpc cfg (fuel + 2) st method params allowRetry (resp :: rest) =
      ⟨.err (.authError msg), { st with requestId := st.requestId + 1 }, rest,
        [⟨st.requestId + 1, method, params,
          if truthyStr st.sessionId then st.sessionId else none⟩], []⟩ := by
  have hmax : ∃ k, (if allowRetry then cfg.maxRetries + 1 else 1) = k + 1 := by
    cases allowRetry <;> simp
  obtain ⟨k, hk⟩ := hmax
  rcases h with h | h
  · refine ⟨"Authentication failed -- check API key or token", ?_⟩
    simp [rpc, nextId, hk, rpcAttempts, h]
  · refine ⟨"Forbidden -- check API key scopes", ?_⟩
    simp [rpc, nextId, hk, rpcAttempts, h]

/-- Witness for C5: a 401 whose body parses as a structured success still
yields the auth failure after one request. -/
theorem authShortCircuit_witness :
    ∃ msg, rpc ⟨3⟩ 2 ⟨some "s", 0⟩ "tools/call" "p" true
        [⟨401, none, ⟨none, some "would-be-success"⟩⟩] =
      ⟨.err (.authError msg), ⟨some "s", 1⟩, [],
        [⟨1, "tools/call", "p", some "s"⟩], []⟩ := by
  have h := authShortCircuit ⟨3⟩ 0 ⟨some "s", 0⟩ "tools/call" "p" true
    ⟨401, none, ⟨none, some "would-be-success"⟩⟩ [] (Or.inl rfl)
  simpa using h

/-- C9: when the establishment response carries a session-id header together
with a structured error body that is raised (quota, subscription, or generic
failure), the header is captured before the error is classified and raised,
so the establishment call fails with the typed error while leaving the fresh
session cached -- session state is not left unchanged on error. -/
theorem sessionCachedOnErrorResponse (cfg : Config) (fuel : Nat)
    (st : ClientState) (resp : HttpResponse) (rest : List HttpResponse)
    (sid : String) (e : RpcError) (ex : NerveErr)
    (hsess : truthyStr st.sessionId = false)
    (h401 : resp.status ≠ 401) (h403 : resp.status ≠ 403)
    (hhdr : resp.sessionHeader = some sid)
    (hbody : resp.body.error = some e)
    (hraise : raisedOf (classifyError e) = some ex) :
    (ensureSession cfg (fuel + 3) st (resp :: rest)).result = .err ex ∧
    (ensureSession cfg (fuel + 3) st (resp :: rest)).state.sessionId = some sid ∧
    (ensureSession cfg (fuel + 3) st (resp :: rest)).sent.length = 1 ∧
    (ensureSession cfg (fuel + 3) st (resp :: rest)).remaining = rest := by
  have e401 : (resp.status == 401) = false := by simp [h401]
  have e403 : (resp.status == 403) = false := by simp [h403]
  cases hcls : classifyError e with
  | rateLimited msg ra => rw [hcls] at hraise; simp [raisedOf] at hraise
  | sessionExpired => rw [hcls] at hraise; simp [raisedOf] at hraise
  | quotaExceeded msg =>
    rw [hcls] at hraise
    simp only [raisedOf, Option.some.injEq] at hraise
    subst hraise
    simp [ensureSession, hsess, rpc, nextId, rpcAttempts, e401, e403, hbody,
      hcls, captureSession, hhdr]
  | subscriptionInactive msg =>
    rw [hcls] at hraise
    simp only [raisedOf, Option.some.injEq] at hraise
    subst hraise
    simp [ensureSession, hsess, rpc, nextId, rpcAttempts, e401, e403, hbody,
      hcls, captureSession, hhdr]
  | generic msg code =>
    rw [hcls] at hraise
    simp only [raisedOf, Option.some.injEq] at hraise
    subst hraise
    simp [ensureSession, hsess, rpc, nextId, rpcAttempts, e401, e403, hbody,
      hcls, captureSession, hhdr]

/-- Witness for C9: an establishment response with header and quota error
leaves the session cached while raising the quota failure. -/
theorem sessionCachedOnErrorResponse_witness :
    (ensureSession ⟨3⟩ 3 ⟨none, 0⟩
        [⟨200, some "sid9", ⟨some ⟨-32040, "Quota exceeded", none⟩, none⟩⟩]).result =
      .err (.quotaError "Quota exceeded") ∧
    (ensureSession ⟨3⟩ 3 ⟨none, 0⟩
        [⟨200, some "sid9", ⟨some ⟨-32040, "Quota exceeded", none⟩, none⟩⟩]).state.sessionId =
      some "sid9" ∧
    (ensureSession ⟨3⟩ 3 ⟨none, 0⟩
        [⟨200, some "sid9", ⟨some ⟨-32040, "Quota exceeded", none⟩, none⟩⟩]).sent.length = 1 ∧
    (ensureSession ⟨3⟩ 3 ⟨none, 0⟩
        [⟨200, some "sid9", ⟨some ⟨-32040, "Quota exceeded", none⟩, none⟩⟩]).remaining = [] := by
  have h := sessionCachedOnErrorResponse ⟨3⟩ 0 ⟨none, 0⟩
    ⟨200, some "sid9", ⟨some ⟨-32040, "Quota exceeded", none⟩, none⟩⟩ []
    "sid9" ⟨-32040, "Quota exceeded", none⟩ (.quotaError "Quota exceeded")
    rfl (by decide) (by decide) rfl rfl (by decide)
  simpa using h

/-- C6: if the establishment response carries no session-id header, the
ensure-session call raises session-establishment-failure after exactly one
round trip, with the cached session left absent, and a later ensure-session
call performs a fresh establishment round trip (which can then succeed);
no automatic retry happens at this layer for that failure. -/
theorem establishmentFailureNoCache (cfg : Config) (fuel : Nat)
    (st : ClientState) (resp : HttpResponse) (rest : List HttpResponse)
    (hsess : truthyStr st.sessionId = false)
    (h401 : resp.status ≠ 401) (h403 : resp.status ≠ 403)
    (hhdr : resp.sessionHeader = none) (hbody : resp.body.error = none) :
    (ensureSession cfg (fuel + 3) st (resp :: rest)).result =
        .err (.sessionError "Server did not return MCP-Session-Id") ∧
    (ensureSession cfg (fuel + 3) st (resp :: rest)).state.sessionId =
        st.sessionId ∧
    (ensureSession cfg (fuel + 3) st (resp :: rest)).sent.length = 1 ∧
    (ensureSession cfg (fuel + 3) st (resp :: rest)).remaining = rest ∧
    (∀ (g : Nat) (r2 : HttpResponse) (rest2 : List HttpResponse) (sid : String),
      r2.status ≠ 401 → r2.status ≠ 403 → r2.sessionHeader = some sid →
      sid ≠ "" → r2.body.error = none →
      (ensureSession cfg (g + 3)
          (ensureSession cfg (fuel + 3) st (resp :: rest)).state
          (r2 :: rest2)).result = .ok none ∧
      (ensureSession cfg (g + 3)
          (ensureSession cfg (fuel + 3) st (resp :: rest)).state
          (r2 :: rest2)).state.sessionId = some sid ∧
      (ensureSession cfg (g + 3)
          (ensureSession cfg (fuel + 3) st (resp :: rest)).state
          (r2 :: rest2)).sent.length = 1) := by
  have e401 : (resp.status == 401) = false := by simp [h401]
  have e403 : (resp.status == 403) = false := by simp [h403]
  have hstep : ensureSession cfg (fuel + 3) st (resp :: rest) =
      ⟨.err (.sessionError "Server did not return MCP-Session-Id"),
        { st with requestId := st.requestId + 1 }, rest,
        [⟨st.requestId + 1, "initialize", initParams, none⟩], []⟩ := by
    simp [ensureSession, hsess, rpc, nextId, rpcAttempts, e401, e403, hbody,
      captureSession, hhdr]
  refine ⟨by rw [hstep], by rw [hstep], by rw [hstep]; rfl, by rw [hstep], ?_⟩
  intro g r2 rest2 sid g401 g403 ghdr gsid gbody
  rw [hstep]
  have f401 : (r2.status == 401) = false := by simp [g401]
  have f403 : (r2.status == 403) = false := by simp [g403]
  have gtruthy : truthyStr (some sid) = true := by
    simp [truthyStr, gsid]
  simp [ensureSession, hsess, rpc, nextId, rpcAttempts, f401, f403, gbody,
    captureSession, ghdr, gtruthy]

/-- Witness for C6: a header-less establishment answer fails and caches
nothing; retrying against a good answer succeeds with one round trip. -/
theorem establishmentFailureNoCache_witness :
    (ensureSession ⟨3⟩ 3 ⟨none, 0⟩ [⟨200, none, ⟨none, some "{}"⟩⟩]).result =
        .err (.sessionError "Server did not return MCP-Session-Id") ∧
    (ensureSession ⟨3⟩ 3 ⟨none, 0⟩
        [⟨200, none, ⟨none, some "{}"⟩⟩]).state.sessionId = none ∧
    (ensureSession ⟨3⟩ 3
        (ensureSession ⟨3⟩ 3 ⟨none, 0⟩ [⟨200, none, ⟨none, some "{}"⟩⟩]).state
        [⟨200, some "sess-2", ⟨none, some "{}"⟩⟩]).result = .ok none ∧
    (ensureSession ⟨3⟩ 3
        (ensureSession ⟨3⟩ 3 ⟨none, 0⟩ [⟨200, none, ⟨none, some "{}"⟩⟩]).state
        [⟨200, some "sess-2", ⟨none, some "{}"⟩⟩]).state.sessionId =
      some "sess-2" := by
  have h := establishmentFailureNoCache ⟨3⟩ 0 ⟨none, 0⟩
    ⟨200, none, ⟨none, some "{}"⟩⟩ [] rfl (by decide) (by decide) rfl rfl
  have h2 := h.2.2.2.2 0 ⟨200, some "sess-2", ⟨none, some "{}"⟩⟩ []
    "sess-2" (by decide) (by decide) rfl (by decide) rfl
  exact ⟨by simpa using h.1, by simpa using h.2.1, by simpa using h2.1,
    by simpa using h2.2.1⟩

/-- Rate-limit loop: with retries allowed, a run of rate-limited responses is
consumed one per attempt, sleeping each server-supplied delay, until the last
permitted attempt raises the rate-limit error of the final response. -/
theorem rpcAttempts_allRateLimited (cfg : Config) (st : ClientState)
    (method params : String) (reqId : Nat) (hdr : Option String)
    (hm : (method == "initialize") = false) :
    ∀ (rs : List HttpResponse) (rlast : HttpResponse) (fuel : Nat),
      rs.length < fuel →
      (∀ r ∈ rs ++ [rlast], isRateLimitedResp r = true) →
      rpcAttempts cfg fuel st method params true reqId hdr (rs.length + 1)
          (rs ++ [rlast]) =
        ⟨.err (.rateLimitError (errMsgOf rlast) (retryAfterOf rlast)), st, [],
          List.replicate (rs.length + 1) ⟨reqId, method, params, hdr⟩,
          rs.map retryAfterOf⟩ := by
  intro rs
  induction rs with
  | nil =>
    intro rlast fuel hfuel hall
    obtain ⟨f, rfl⟩ : ∃ f, fuel = f + 1 := ⟨fuel - 1, by omega⟩
    have hrl := hall rlast (by simp)
    rcases hre : rlast.body.error with _ | e
    · rw [isRateLimitedResp, hre] at hrl; simp at hrl
    · rw [isRateLimitedResp, hre] at hrl
      simp only [Bool.and_eq_true, Bool.not_eq_true'] at hrl
      obtain ⟨⟨e401, e403⟩, hcode⟩ := hrl
      simp [rpcAttempts, e401, e403, hre, classifyError, hcode,
        captureSession, hm, errMsgOf, retryAfterOf]
  | cons r rs ih =>
    intro rlast fuel hfuel hall
    obtain ⟨f, rfl⟩ : ∃ f, fuel = f + 1 := ⟨fuel - 1, by omega⟩
    have hrl := hall r (by simp)
    rcases hre : r.body.error with _ | e
    · rw [isRateLimitedResp, hre] at hrl; simp at hrl
    · rw [isRateLimitedResp, hre] at hrl
      simp only [Bool.and_eq_true, Bool.not_eq_true'] at hrl
      obtain ⟨⟨e401, e403⟩, hcode⟩ := hrl
      have hrec := ih rlast f (by simp at hfuel; omega)
        (fun x hx => hall x (by simp at hx ⊢; tauto))
      simp only [List.length_cons, List.cons_append]
      simp [rpcAttempts, e401, e403, hre, classifyError, hcode,
        captureSession, hm, hrec, errMsgOf, retryAfterOf,
        List.replicate_succ]

/-- C3: an idempotency-eligible tool call that is rate-limited on every
attempt sends exactly max-retries + 1 requests, sleeping each server-supplied
retry-after before each retry, and raises the rate-limit error carrying the
last server-supplied retry-after; the designated non-idempotent tool raises
the rate-limit error after exactly one request on the first rate-limited
response. -/
theorem rateLimitRetryBound (cfg : Config) (fuel : Nat) (st : ClientState)
    (name arguments : String) (rs : List HttpResponse) (rlast : HttpResponse)
    (hname : nonIdempotentTools.contains name = false)
    (hsess : truthyStr st.sessionId = true)
    (hall : ∀ r ∈ rs ++ [rlast], isRateLimitedResp r = true)
    (hlen : rs.length = cfg.maxRetries)
    (hfuel : cfg.maxRetries + 2 ≤ fuel) :
    (callTool cfg fuel st name arguments (rs ++ [rlast])).result =
        .err (.rateLimitError (errMsgOf rlast) (retryAfterOf rlast)) ∧
    (callTool cfg fuel st name arguments (rs ++ [rlast])).sent.length =
        cfg.maxRetries + 1 ∧
    (callTool cfg fuel st name arguments (rs ++ [rlast])).sleeps =
        rs.map retryAfterOf ∧
    (∀ (st2 : ClientState) (r : HttpResponse) (rest2 : List HttpResponse),
      truthyStr st2.sessionId = true → isRateLimitedResp r = true →
      (callTool cfg fuel st2 "send_reply" arguments (r :: rest2)).result =
          .err (.rateLimitError (errMsgOf r) (retryAfterOf r)) ∧
      (callTool cfg fuel st2 "send_reply" arguments (r :: rest2)).sent.length
          = 1) := by
  obtain ⟨f, rfl⟩ : ∃ f, fuel = f + 2 := ⟨fuel - 2, by omega⟩
  have hloop := rpcAttempts_allRateLimited cfg
    { st with requestId := st.requestId + 1 } "tools/call"
    (toolParams name arguments) (st.requestId + 1) st.sessionId rfl
    rs rlast (f + 1) (by omega) hall
  rw [hlen] at hloop
  have hcall : callTool cfg (f + 2) st name arguments (rs ++ [rlast]) =
      ⟨.err (.rateLimitError (errMsgOf rlast) (retryAfterOf rlast)),
        { st with requestId := st.requestId + 1 }, [],
        List.replicate (cfg.maxRetries + 1)
          ⟨st.requestId + 1, "tools/call", toolParams name arguments,
            st.sessionId⟩,
        rs.map retryAfterOf⟩ := by
    have h1 : ensureSession cfg (f + 2) st (rs ++ [rlast]) =
        ⟨.ok none, st, rs ++ [rlast], [], []⟩ := by
      simp [ensureSession, hsess]
    have h2 : rpc cfg (f + 2) st "tools/call" (toolParams name arguments) true
        (rs ++ [rlast]) =
        ⟨.err (.rateLimitError (errMsgOf rlast) (retryAfterOf rlast)),
          { st with requestId := st.requestId + 1 }, [],
          List.replicate (cfg.maxRetries + 1)
            ⟨st.requestId + 1, "tools/call", toolParams name arguments,
              st.sessionId⟩,
          rs.map retryAfterOf⟩ := by
      rw [rpc]
      simpa [nextId, hsess] using hloop
    have hmem : ¬ (name ∈ nonIdempotentTools) := by simpa using hname
    simp [callTool, h1, hmem, h2]
  refine ⟨by rw [hcall], by rw [hcall]; simp, by rw [hcall], ?_⟩
  intro st2 r rest2 hsess2 hrl
  rcases hre : r.body.error with _ | e
  · rw [isRateLimitedResp, hre] at hrl; simp at hrl
  · rw [isRateLimitedResp, hre] at hrl
    simp only [Bool.and_eq_true, Bool.not_eq_true'] at hrl
    obtain ⟨⟨e401, e403⟩, hcode⟩ := hrl
    have hstep : callTool cfg (f + 2) st2 "send_reply" arguments
        (r :: rest2) =
        ⟨.err (.rateLimitError (errMsgOf r) (retryAfterOf r)),
          { st2 with requestId := st2.requestId + 1 }, rest2,
          [⟨st2.requestId + 1, "tools/call", toolParams "send_reply" arguments,
            st2.sessionId⟩], []⟩ := by
      have h1 : ensureSession cfg (f + 2) st2 (r :: rest2) =
          ⟨.ok none, st2, r :: rest2, [], []⟩ := by
        simp [ensureSession, hsess2]
      have h2 : rpc cfg (f + 2) st2 "tools/call"
          (toolParams "send_reply" arguments) false (r :: rest2) =
          ⟨.err (.rateLimitError (errMsgOf r) (retryAfterOf r)),
            { st2 with requestId := st2.requestId + 1 }, rest2,
            [⟨st2.requestId + 1, "tools/call",
              toolParams "send_reply" arguments, st2.sessionId⟩], []⟩ := by
        rw [rpc]
        simp [nextId, hsess2, rpcAttempts, e401, e403, hre, classifyError,
          hcode, captureSession, errMsgOf, retryAfterOf]
      have hmem2 : "send_reply" ∈ nonIdempotentTools := by decide
      simp [callTool, h1, hmem2, h2]
    exact ⟨by rw [hstep], by rw [hstep]; rfl⟩

/-- Witness for C3 at max-retries 2, three rate-limited answers, and a
single rate-limited answer to the non-idempotent tool. -/
theorem rateLimitRetryBound_witness :
    (callTool ⟨2⟩ 4 ⟨some "s", 0⟩ "list_threads" "a"
        [⟨200, none, ⟨some ⟨-32042, "Rate limited", some 5⟩, none⟩⟩,
         ⟨200, none, ⟨some ⟨-32042, "Rate limited", some 6⟩, none⟩⟩,
         ⟨200, none, ⟨some ⟨-32042, "Rate limited", some 7⟩, none⟩⟩]).result =
      .err (.rateLimitError "Rate limited" 7) ∧
    (callTool ⟨2⟩ 4 ⟨some "s", 0⟩ "list_threads" "a"
        [⟨200, none, ⟨some ⟨-32042, "Rate limited", some 5⟩, none⟩⟩,
         ⟨200, none, ⟨some ⟨-32042, "Rate limited", some 6⟩, none⟩⟩,
         ⟨200, none, ⟨some ⟨-32042, "Rate limited", some 7⟩, none⟩⟩]).sent.length = 3 ∧
    (callTool ⟨2⟩ 4 ⟨some "s", 0⟩ "list_threads" "a"
        [⟨200, none, ⟨some ⟨-32042, "Rate limited", some 5⟩, none⟩⟩,
         ⟨200, none, ⟨some ⟨-32042, "Rate limited", some 6⟩, none⟩⟩,
         ⟨200, none, ⟨some ⟨-32042, "Rate limited", some 7⟩, none⟩⟩]).sleeps = [5, 6] ∧
    (callTool ⟨2⟩ 4 ⟨some "s", 0⟩ "send_reply" "a"
        [⟨200, none, ⟨some ⟨-32042, "Rate limited", some 9⟩, none⟩⟩]).result =
      .err (.rateLimitError "Rate limited" 9) ∧
    (callTool ⟨2⟩ 4 ⟨some "s", 0⟩ "send_reply" "a"
        [⟨200, none, ⟨some ⟨-32042, "Rate limited", some 9⟩, none⟩⟩]).sent.length = 1 := by
  have h := rateLimitRetryBound ⟨2⟩ 4 ⟨some "s", 0⟩ "list_threads" "a"
    [⟨200, none, ⟨some ⟨-32042, "Rate limited", some 5⟩, none⟩⟩,
     ⟨200, none, ⟨some ⟨-32042, "Rate limited", some 6⟩, none⟩⟩]
    ⟨200, none, ⟨some ⟨-32042, "Rate limited", some 7⟩, none⟩⟩
    (by decide) rfl (by decide) rfl (by decide)
  have h4 := h.2.2.2 ⟨some "s", 0⟩
    ⟨200, none, ⟨some ⟨-32042, "Rate limited", some 9⟩, none⟩⟩ [] rfl (by decide)
  exact ⟨by simpa using h.1, by simpa using h.2.1, by simpa using h.2.2.1,
    by simpa using h4.1, by simpa using h4.2⟩

/-- Every answered POST of a call either belongs to the logical call itself
(same method, the once-assigned sequence id, same params) or is a nested
establishment request; establishment calls only ever send establishment
requests. -/
theorem sent_method_shape (cfg : Config) : ∀ (fuel : Nat),
    (∀ (st : ClientState) (method params : String) (allowRetry : Bool)
        (reqId aL : Nat) (hdr : Option String) (rs : List HttpResponse)
        (q : SentRequest),
      q ∈ (rpcAttempts cfg fuel st method params allowRetry reqId hdr aL rs).sent →
      (q.method = method ∧ q.reqId = reqId ∧ q.params = params) ∨
        q.method = "initialize") ∧
    (∀ (st : ClientState) (method params : String) (allowRetry : Bool)
        (rs : List HttpResponse) (q : SentRequest),
      q ∈ (rpc cfg fuel st method params allowRetry rs).sent →
      (q.method = method ∧ q.reqId = st.requestId + 1 ∧ q.params = params) ∨
        q.method = "initialize") ∧
    (∀ (st : ClientState) (rs : List HttpResponse) (q : SentRequest),
      q ∈ (ensureSession cfg fuel st rs).sent → q.method = "initialize") := by
  intro fuel
  induction fuel with
  | zero =>
    refine ⟨?_, ?_, ?_⟩
    · intro st method params allowRetry reqId aL hdr rs q hq
      simp [rpcAttempts] at hq
    · intro st method params allowRetry rs q hq
      simp [rpc] at hq
    · intro st rs q hq
      simp [ensureSession] at hq
  | succ f ih =>
    obtain ⟨ihAtt, ihRpc, ihEns⟩ := ih
    have hrpc : ∀ (st : ClientState) (method params : String)
        (allowRetry : Bool) (rs : List HttpResponse) (q : SentRequest),
        q ∈ (rpc cfg (f + 1) st method params allowRetry rs).sent →
        (q.method = method ∧ q.reqId = st.requestId + 1 ∧ q.params = params) ∨
          q.method = "initialize" := by
      intro st method params allowRetry rs q hq
      simp only [rpc] at hq
      exact ihAtt _ _ _ _ _ _ _ _ _ hq
    refine ⟨?_, hrpc, ?_⟩
    · intro st method params allowRetry reqId aL hdr rs q hq
      match aL, rs with
      | 0, rs => simp [rpcAttempts] at hq
      | aL + 1, [] => simp [rpcAttempts] at hq
      | aL + 1, resp :: rest =>
        simp only [rpcAttempts] at hq
        split at hq
        · simp at hq; subst hq; exact .inl ⟨rfl, rfl, rfl⟩
        · split at hq
          · simp at hq; subst hq; exact .inl ⟨rfl, rfl, rfl⟩
          · split at hq
            · simp at hq; subst hq; exact .inl ⟨rfl, rfl, rfl⟩
            · split at hq
              · -- rateLimited
                split at hq
                · simp at hq
                  rcases hq with hq | hq
                  · subst hq; exact .inl ⟨rfl, rfl, rfl⟩
                  · exact ihAtt _ _ _ _ _ _ _ _ _ hq
                · simp at hq; subst hq; exact .inl ⟨rfl, rfl, rfl⟩
              · -- quotaExceeded
                simp at hq; subst hq; exact .inl ⟨rfl, rfl, rfl⟩
              · -- subscriptionInactive
                simp at hq; subst hq; exact .inl ⟨rfl, rfl, rfl⟩
              · -- sessionExpired
                split at hq
                · simp at hq
                  rcases hq with hq | hq | hq
                  · subst hq; exact .inl ⟨rfl, rfl, rfl⟩
                  · exact .inr (ihEns _ _ _ hq)
                  · exact ihAtt _ _ _ _ _ _ _ _ _ hq
                · simp at hq
                  rcases hq with hq | hq
                  · subst hq; exact .inl ⟨rfl, rfl, rfl⟩
                  · exact .inr (ihEns _ _ _ hq)
                · simp at hq
                  rcases hq with hq | hq
                  · subst hq; exact .inl ⟨rfl, rfl, rfl⟩
                  · exact .inr (ihEns _ _ _ hq)
              · -- generic
                simp at hq; subst hq; exact .inl ⟨rfl, rfl, rfl⟩
    · intro st rs q hq
      simp only [ensureSession] at hq
      split at hq
      · simp at hq
      · split at hq
        · split at hq
          · rcases ihRpc st "initialize" initParams true rs q (by simpa using hq)
              with ⟨h1, _, _⟩ | h1 <;> exact h1
          · rcases ihRpc st "initialize" initParams true rs q (by simpa using hq)
              with ⟨h1, _, _⟩ | h1 <;> exact h1
        · rcases ihRpc st "initialize" initParams true rs q (by simpa using hq)
            with ⟨h1, _, _⟩ | h1 <;> exact h1

/-- C10: within one logical RPC call, every answered attempt that belongs to
the call itself -- the initial send, each rate-limit retry, and any
session-recovery replay -- carries the identical request body: the same
method and params and the single sequence id assigned before the first send
(only nested establishment requests, recognisable by their method, carry
other ids). -/
theorem stableRequestBody (cfg : Config) (fuel : Nat) (st : ClientState)
    (method params : String) (allowRetry : Bool) (rs : List HttpResponse)
    (hm : method ≠ "initialize") (q : SentRequest)
    (hq : q ∈ (rpc cfg fuel st method params allowRetry rs).sent)
    (hqm : q.method = method) :
    q.reqId = st.requestId + 1 ∧ q.params = params := by
  rcases (sent_method_shape cfg fuel).2.1 st method params allowRetry rs q hq
    with ⟨h1, h2, h3⟩ | h1
  · exact ⟨h2, h3⟩
  · exact absurd (hqm.symm.trans h1) hm

/-- Witness for C10: in the session-recovery scenario both tools/call
attempts carry sequence id 1 and the same params. -/
theorem stableRequestBody_witness :
    (⟨1, "tools/call", "p", some "sess-2"⟩ : SentRequest) ∈
      (rpc ⟨3⟩ 9 ⟨some "sess-1", 0⟩ "tools/call" "p" true
        [⟨200, none, ⟨some ⟨-32000, "Session expired", none⟩, none⟩⟩,
         ⟨200, some "sess-2", ⟨none, some "{}"⟩⟩,
         ⟨200, none, ⟨none, some "ok"⟩⟩]).sent ∧
    (⟨1, "tools/call", "p", some "sess-2"⟩ : SentRequest).reqId = 0 + 1 ∧
    (⟨1, "tools/call", "p", some "sess-2"⟩ : SentRequest).params = "p" := by
  have hmem : (⟨1, "tools/call", "p", some "sess-2"⟩ : SentRequest) ∈
      (rpc ⟨3⟩ 9 ⟨some "sess-1", 0⟩ "tools/call" "p" true
        [⟨200, none, ⟨some ⟨-32000, "Session expired", none⟩, none⟩⟩,
         ⟨200, some "sess-2", ⟨none, some "{}"⟩⟩,
         ⟨200, none, ⟨none, some "ok"⟩⟩]).sent := by decide
  exact ⟨hmem,
    (stableRequestBody ⟨3⟩ 9 ⟨some "sess-1", 0⟩ "tools/call" "p" true _
      (by decide) _ hmem rfl).1,
    (stableRequestBody ⟨3⟩ 9 ⟨some "sess-1", 0⟩ "tools/call" "p" true _
      (by decide) _ hmem rfl).2⟩

/-- C1 is false as stated: for the designated non-idempotent tool a
session-expiry classification performs the invalidate + re-establishment
cycle but never replays the request -- the attempt budget (one attempt) is
already exhausted, so the call raises the retry-exhaustion error even though
the next server answer would have been the final success. -/
theorem sessionRecoveryReplay_cex :
    (callTool ⟨3⟩ 10 ⟨some "sess-1", 0⟩ "send_reply" "args"
        [⟨200, none, ⟨some ⟨-32000, "Session expired", none⟩, none⟩⟩,
         ⟨200, some "sess-2", ⟨none, some "{}"⟩⟩,
         ⟨200, none, ⟨none, some "ok"⟩⟩]).result =
      .err (.nerveError "Max retries exceeded" 0) ∧
    (callTool ⟨3⟩ 10 ⟨some "sess-1", 0⟩ "send_reply" "args"
        [⟨200, none, ⟨some ⟨-32000, "Session expired", none⟩, none⟩⟩,
         ⟨200, some "sess-2", ⟨none, some "{}"⟩⟩,
         ⟨200, none, ⟨none, some "ok"⟩⟩]).sent.length = 2 ∧
    (callTool ⟨3⟩ 10 ⟨some "sess-1", 0⟩ "send_reply" "args"
        [⟨200, none, ⟨some ⟨-32000, "Session expired", none⟩, none⟩⟩,
         ⟨200, some "sess-2", ⟨none, some "{}"⟩⟩,
         ⟨200, none, ⟨none, some "ok"⟩⟩]).remaining =
      [⟨200, none, ⟨none, some "ok"⟩⟩] := by decide

/-- C1 (amended): for an idempotency-eligible tool call with at least one
configured retry, a session-expiry classification triggers an invalidate +
re-establishment cycle and the same request body is replayed with the fresh
session attached, so a caller facing one expiry followed by success observes
only the final success; the replay, however, consumes one attempt from the
same budget as rate-limit retries, and for the designated non-idempotent
tool (whose budget is a single attempt) no replay happens at all: the call
raises the retry-exhaustion error with the success answer left unconsumed. -/
theorem sessionRecoveryReplay_amended (cfg : Config) (fuel : Nat)
    (st : ClientState) (name arguments : String)
    (r1 r2 r3 : HttpResponse) (rest : List HttpResponse)
    (e1 : RpcError) (sid : String) (v : Option String)
    (hname : nonIdempotentTools.contains name = false)
    (hretries : 1 ≤ cfg.maxRetries)
    (hsess : truthyStr st.sessionId = true)
    (hfuel : 5 ≤ fuel)
    (h1a : r1.status ≠ 401) (h1b : r1.status ≠ 403)
    (h1c : r1.body.error = some e1)
    (h1d : classifyError e1 = .sessionExpired)
    (h2a : r2.status ≠ 401) (h2b : r2.status ≠ 403)
    (h2c : r2.sessionHeader = some sid) (h2d : sid ≠ "")
    (h2e : r2.body.error = none)
    (h3a : r3.status ≠ 401) (h3b : r3.status ≠ 403)
    (h3c : r3.body.error = none) (h3d : r3.body.result = v) :
    (callTool cfg fuel st name arguments (r1 :: r2 :: r3 :: rest)).result =
        .ok v ∧
    (callTool cfg fuel st name arguments
        (r1 :: r2 :: r3 :: rest)).state.sessionId = some sid ∧
    (callTool cfg fuel st name arguments
        (r1 :: r2 :: r3 :: rest)).remaining = rest ∧
    (callTool cfg fuel st name arguments
        (r1 :: r2 :: r3 :: rest)).sent.length = 3 ∧
    (∀ st2 : ClientState, truthyStr st2.sessionId = true →
      (callTool cfg fuel st2 "send_reply" arguments
          (r1 :: r2 :: r3 :: rest)).result =
        .err (.nerveError "Max retries exceeded" 0) ∧
      (callTool cfg fuel st2 "send_reply" arguments
          (r1 :: r2 :: r3 :: rest)).sent.length = 2 ∧
      (callTool cfg fuel st2 "send_reply" arguments
          (r1 :: r2 :: r3 :: rest)).remaining = r3 :: rest) := by
  obtain ⟨f, rfl⟩ : ∃ f, fuel = f + 5 := ⟨fuel - 5, by omega⟩
  obtain ⟨k, hk⟩ : ∃ k, cfg.maxRetries = k + 1 := ⟨cfg.maxRetries - 1, by omega⟩
  have e1a : (r1.status == 401) = false := by simp [h1a]
  have e1b : (r1.status == 403) = false := by simp [h1b]
  have e2a : (r2.status == 401) = false := by simp [h2a]
  have e2b : (r2.status == 403) = false := by simp [h2b]
  have e3a : (r3.status == 401) = false := by simp [h3a]
  have e3b : (r3.status == 403) = false := by simp [h3b]
  have htruthy : truthyStr (some sid) = true := by simp [truthyStr, h2d]
  have hens1 : ∀ (g m : Nat),
      ensureSession cfg (g + 3) ⟨none, m⟩ (r2 :: r3 :: rest) =
        ⟨.ok none, ⟨some sid, m + 1⟩, r3 :: rest,
          [⟨m + 1, "initialize", initParams, none⟩], []⟩ := by
    intro g m
    have hrpc2 : rpc cfg (g + 2) ⟨none, m⟩ "initialize" initParams true
        (r2 :: r3 :: rest) =
        ⟨.ok r2.body.result, ⟨some sid, m + 1⟩, r3 :: rest,
          [⟨m + 1, "initialize", initParams, none⟩], []⟩ := by
      rw [rpc]
      simp [nextId, truthyStr, rpcAttempts, e2a, e2b, captureSession, h2c, h2e]
    simp [ensureSession, truthyStr, hrpc2, htruthy, h2d]
  have houter : rpcAttempts cfg (f + 4)
      { st with requestId := st.requestId + 1 } "tools/call"
      (toolParams name arguments) true (st.requestId + 1) st.sessionId
      (cfg.maxRetries + 1) (r1 :: r2 :: r3 :: rest) =
      ⟨.ok v, ⟨some sid, st.requestId + 1 + 1⟩, rest,
        [⟨st.requestId + 1, "tools/call", toolParams name arguments,
          st.sessionId⟩,
         ⟨st.requestId + 1 + 1, "initialize", initParams, none⟩,
         ⟨st.requestId + 1, "tools/call", toolParams name arguments,
          some sid⟩], []⟩ := by
    have hens := hens1 f (st.requestId + 1)
    simp [rpcAttempts, h1a, h1b, e1a, e1b, h1c, h1d, h3a, h3b, e3a, e3b,
      h3c, h3d, captureSession, hens, hk]
  have hens0 : ensureSession cfg (f + 5) st (r1 :: r2 :: r3 :: rest) =
      ⟨.ok none, st, r1 :: r2 :: r3 :: rest, [], []⟩ := by
    simp [ensureSession, hsess]
  have hmem : ¬ (name ∈ nonIdempotentTools) := by simpa using hname
  have hr : rpc cfg (f + 5) st "tools/call" (toolParams name arguments) true
      (r1 :: r2 :: r3 :: rest) =
      ⟨.ok v, ⟨some sid, st.requestId + 1 + 1⟩, rest,
        [⟨st.requestId + 1, "tools/call", toolParams name arguments,
          st.sessionId⟩,
         ⟨st.requestId + 1 + 1, "initialize", initParams, none⟩,
         ⟨st.requestId + 1, "tools/call", toolParams name arguments,
          some sid⟩], []⟩ := by
    rw [rpc]
    simpa [nextId, hsess] using houter
  have hcall : callTool cfg (f + 5) st name arguments
      (r1 :: r2 :: r3 :: rest) =
      ⟨.ok v, ⟨some sid, st.requestId + 1 + 1⟩, rest,
        [⟨st.requestId + 1, "tools/call", toolParams name arguments,
          st.sessionId⟩,
         ⟨st.requestId + 1 + 1, "initialize", initParams, none⟩,
         ⟨st.requestId + 1, "tools/call", toolParams name arguments,
          some sid⟩], []⟩ := by
    simp [callTool, hens0, hmem, hr]
  refine ⟨by rw [hcall], by rw [hcall], by rw [hcall],
    by rw [hcall]; rfl, ?_⟩
  intro st2 hsess2
  have hens0b : ensureSession cfg (f + 5) st2 (r1 :: r2 :: r3 :: rest) =
      ⟨.ok none, st2, r1 :: r2 :: r3 :: rest, [], []⟩ := by
    simp [ensureSession, hsess2]
  have hmem2 : "send_reply" ∈ nonIdempotentTools := by decide
  have houterb : rpcAttempts cfg (f + 4)
      { st2 with requestId := st2.requestId + 1 } "tools/call"
      (toolParams "send_reply" arguments) false (st2.requestId + 1)
      st2.sessionId 1 (r1 :: r2 :: r3 :: rest) =
      ⟨.err (.nerveError "Max retries exceeded" 0),
        ⟨some sid, st2.requestId + 1 + 1⟩, r3 :: rest,
        [⟨st2.requestId + 1, "tools/call", toolParams "send_reply" arguments,
          st2.sessionId⟩,
         ⟨st2.requestId + 1 + 1, "initialize", initParams, none⟩], []⟩ := by
    have hens := hens1 f (st2.requestId + 1)
    simp [rpcAttempts, h1a, h1b, e1a, e1b, h1c, h1d, captureSession, hens]
  have hrb : rpc cfg (f + 5) st2 "tools/call"
      (toolParams "send_reply" arguments) false (r1 :: r2 :: r3 :: rest) =
      ⟨.err (.nerveError "Max retries exceeded" 0),
        ⟨some sid, st2.requestId + 1 + 1⟩, r3 :: rest,
        [⟨st2.requestId + 1, "tools/call", toolParams "send_reply" arguments,
          st2.sessionId⟩,
         ⟨st2.requestId + 1 + 1, "initialize", initParams, none⟩], []⟩ := by
    rw [rpc]
    simpa [nextId, hsess2] using houterb
  have hcallb : callTool cfg (f + 5) st2 "send_reply" arguments
      (r1 :: r2 :: r3 :: rest) =
      ⟨.err (.nerveError "Max retries exceeded" 0),
        ⟨some sid, st2.requestId + 1 + 1⟩, r3 :: rest,
        [⟨st2.requestId + 1, "tools/call", toolParams "send_reply" arguments,
          st2.sessionId⟩,
         ⟨st2.requestId + 1 + 1, "initialize", initParams, none⟩], []⟩ := by
    simp [callTool, hens0b, hmem2, hrb]
  exact ⟨by rw [hcallb], by rw [hcallb]; rfl, by rw [hcallb]⟩

/-- Witness for the amended C1 in the concrete recovery scenario. -/
theorem sessionRecoveryReplay_amended_witness :
    (callTool ⟨3⟩ 5 ⟨some "sess-1", 0⟩ "list_threads" "args"
        [⟨200, none, ⟨some ⟨-32000, "Session expired", none⟩, none⟩⟩,
         ⟨200, some "sess-2", ⟨none, some "{}"⟩⟩,
         ⟨200, none, ⟨none, some "ok"⟩⟩]).result = .ok (some "ok") ∧
    (callTool ⟨3⟩ 5 ⟨some "sess-1", 0⟩ "list_threads" "args"
        [⟨200, none, ⟨some ⟨-32000, "Session expired", none⟩, none⟩⟩,
         ⟨200, some "sess-2", ⟨none, some "{}"⟩⟩,
         ⟨200, none, ⟨none, some "ok"⟩⟩]).state.sessionId = some "sess-2" ∧
    (callTool ⟨3⟩ 5 ⟨some "sess-1", 0⟩ "list_threads" "args"
        [⟨200, none, ⟨some ⟨-32000, "Session expired", none⟩, none⟩⟩,
         ⟨200, some "sess-2", ⟨none, some "{}"⟩⟩,
         ⟨200, none, ⟨none, some "ok"⟩⟩]).sent.length = 3 ∧
    (callTool ⟨3⟩ 5 ⟨some "sess-1", 0⟩ "send_reply" "args"
        [⟨200, none, ⟨some ⟨-32000, "Session expired", none⟩, none⟩⟩,
         ⟨200, some "sess-2", ⟨none, some "{}"⟩⟩,
         ⟨200, none, ⟨none, some "ok"⟩⟩]).result =
      .err (.nerveError "Max retries exceeded" 0) := by
  have h := sessionRecoveryReplay_amended ⟨3⟩ 5 ⟨some "sess-1", 0⟩
    "list_threads" "args"
    ⟨200, none, ⟨some ⟨-32000, "Session expired", none⟩, none⟩⟩
    ⟨200, some "sess-2", ⟨none, some "{}"⟩⟩
    ⟨200, none, ⟨none, some "ok"⟩⟩ []
    ⟨-32000, "Session expired", none⟩ "sess-2" (some "ok")
    (by decide) (by decide) rfl (by decide)
    (by decide) (by decide) rfl (by decide)
    (by decide) (by decide) rfl (by decide) rfl
    (by decide) (by decide) rfl rfl
  exact ⟨h.1, h.2.1, h.2.2.2.1,
    (h.2.2.2.2 ⟨some "sess-1", 0⟩ rfl).1⟩

/-- The invariant holds in the initial state. -/
theorem concInv_init (n : Nat) (sid : String) : ConcInv n sid (initConc n) := by
  refine ⟨Or.inl ⟨rfl, rfl⟩, ?_, ?_⟩
  · intro i h
    exact absurd h (by simp [initConc])
  · intro i obs h
    exact absurd h (by simp [initConc])

/-- The invariant is preserved by every interleaving step. -/
theorem concInv_step {n : Nat} {sid : String} (hsid : sid ≠ "")
    {s t : ConcState n} (hinv : ConcInv n sid s) (hstep : Step n sid s t) :
    ConcInv n sid t := by
  obtain ⟨hcount, hest, hdone⟩ := hinv
  cases hstep with
  | checkHit i s hpc htr =>
    have hsess : s.sessionId = some sid := by
      rcases hcount with ⟨_, h0⟩ | ⟨_, h1⟩
      · rw [h0] at htr; simp [truthyStr] at htr
      · exact h1
    refine ⟨hcount, ?_, ?_⟩
    · intro j hj
      dsimp only at hj ⊢
      by_cases hij : j = i
      · subst hij; rw [Function.update_same] at hj; cases hj
      · rw [Function.update_noteq hij] at hj
        exact hest j hj
    · intro j obs hj
      dsimp only at hj ⊢
      by_cases hij : j = i
      · subst hij; rw [Function.update_same] at hj
        injection hj with h
        exact ⟨h ▸ hsess, hsess⟩
      · rw [Function.update_noteq hij] at hj
        exact hdone j obs hj
  | checkMiss i s hpc htr =>
    refine ⟨hcount, ?_, ?_⟩
    · intro j hj
      dsimp only at hj ⊢
      by_cases hij : j = i
      · subst hij; rw [Function.update_same] at hj; cases hj
      · rw [Function.update_noteq hij] at hj
        exact hest j hj
    · intro j obs hj
      dsimp only at hj ⊢
      by_cases hij : j = i
      · subst hij; rw [Function.update_same] at hj; cases hj
      · rw [Function.update_noteq hij] at hj
        exact hdone j obs hj
  | acquireHit i s hpc hlock htr =>
    have hsess : s.sessionId = some sid := by
      rcases hcount with ⟨_, h0⟩ | ⟨_, h1⟩
      · rw [h0] at htr; simp [truthyStr] at htr
      · exact h1
    refine ⟨hcount, ?_, ?_⟩
    · intro j hj
      dsimp only at hj ⊢
      by_cases hij : j = i
      · subst hij; rw [Function.update_same] at hj; cases hj
      · rw [Function.update_noteq hij] at hj
        exact hest j hj
    · intro j obs hj
      dsimp only at hj ⊢
      by_cases hij : j = i
      · subst hij; rw [Function.update_same] at hj
        injection hj with h
        exact ⟨h ▸ hsess, hsess⟩
      · rw [Function.update_noteq hij] at hj
        exact hdone j obs hj
  | acquireMiss i s hpc hlock htr =>
    have hnone : s.sessionId = none := by
      rcases hcount with ⟨_, h0⟩ | ⟨_, h1⟩
      · exact h0
      · rw [h1] at htr
        simp [truthyStr] at htr
        exact absurd htr hsid
    refine ⟨hcount, ?_, ?_⟩
    · intro j hj
      dsimp only at hj ⊢
      by_cases hij : j = i
      · subst hij; exact ⟨rfl, hnone⟩
      · rw [Function.update_noteq hij] at hj
        have := (hest j hj).1
        rw [hlock] at this
        cases this
    · intro j obs hj
      dsimp only at hj ⊢
      by_cases hij : j = i
      · subst hij; rw [Function.update_same] at hj; cases hj
      · rw [Function.update_noteq hij] at hj
        have := (hdone j obs hj).2
        rw [hnone] at this
        cases this
  | completeEstablish i s hpc =>
    have hfacts := hest i hpc
    have h0 : s.establishCount = 0 := by
      rcases hcount with ⟨h, _⟩ | ⟨_, h⟩
      · exact h
      · rw [hfacts.2] at h; cases h
    refine ⟨Or.inr ⟨by rw [h0], rfl⟩, ?_, ?_⟩
    · intro j hj
      dsimp only at hj ⊢
      by_cases hij : j = i
      · subst hij; rw [Function.update_same] at hj; cases hj
      · rw [Function.update_noteq hij] at hj
        have := (hest j hj).1
        rw [hfacts.1] at this
        injection this with h
        exact absurd h.symm hij
    · intro j obs hj
      dsimp only at hj ⊢
      by_cases hij : j = i
      · subst hij; rw [Function.update_same] at hj
        injection hj with h
        exact ⟨h.symm, rfl⟩
      · rw [Function.update_noteq hij] at hj
        exact ⟨(hdone j obs hj).1, rfl⟩

/-- The invariant holds in every reachable state. -/
theorem concInv_reach {n : Nat} {sid : String} (hsid : sid ≠ "")
    {s : ConcState n}
    (h : Relation.ReflTransGen (Step n sid) (initConc n) s) :
    ConcInv n sid s := by
  induction h with
  | refl => exact concInv_init n sid
  | tail hsteps hstep ih => exact concInv_step hsid ih hstep

/-- C2: in the concurrent model of ensure-session, any execution from the
fresh-client state in which all N coroutines have finished performed exactly
one establishment round trip -- the others re-checked inside the exclusion
region or before it and finished without establishing -- and every coroutine
observed the same established session identifier. -/
theorem singleEstablishmentUnderContention {n : Nat} (sid : String)
    (hsid : sid ≠ "") (hn : 0 < n) (s : ConcState n)
    (hreach : Relation.ReflTransGen (Step n sid) (initConc n) s)
    (hdone : ∀ i, ∃ obs, s.pcs i = Pc.done obs) :
    s.establishCount = 1 ∧
    ∀ i obs, s.pcs i = Pc.done obs → obs = some sid := by
  obtain ⟨hcount, hest, hdone2⟩ := concInv_reach hsid hreach
  obtain ⟨obs, hobs⟩ := hdone ⟨0, hn⟩
  have hsess := (hdone2 _ _ hobs).2
  rcases hcount with ⟨_, h0⟩ | ⟨h1, _⟩
  · rw [h0] at hsess; cases hsess
  · exact ⟨h1, fun i obs h => (hdone2 i obs h).1⟩

/-- Witness for C2: an explicit terminating execution for one coroutine. -/
theorem singleEstablishmentUnderContention_witness :
    ∃ s : ConcState 1,
      Relation.ReflTransGen (Step 1 "sess") (initConc 1) s ∧
      (∀ i, ∃ obs, s.pcs i = Pc.done obs) ∧
      s.establishCount = 1 ∧
      (∀ i obs, s.pcs i = Pc.done obs → obs = some "sess") := by
  have step1 : Step 1 "sess" (initConc 1)
      (⟨none, none, Function.update (initConc 1).pcs 0 Pc.wantLock, 0⟩ :
        ConcState 1) :=
    Step.checkMiss 0 (initConc 1) rfl rfl
  have hpc1 : (⟨none, none,
      Function.update (initConc 1).pcs 0 Pc.wantLock, 0⟩ :
        ConcState 1).pcs 0 = Pc.wantLock := by
    dsimp only
    rw [Function.update_same]
  have step2 : Step 1 "sess"
      (⟨none, none, Function.update (initConc 1).pcs 0 Pc.wantLock, 0⟩ :
        ConcState 1)
      (⟨none, some 0,
        Function.update
          (Function.update (initConc 1).pcs 0 Pc.wantLock) 0 Pc.establishing,
        0⟩ : ConcState 1) :=
    Step.acquireMiss 0 _ hpc1 rfl rfl
  have hpc2 : (⟨none, some 0,
      Function.update
        (Function.update (initConc 1).pcs 0 Pc.wantLock) 0 Pc.establishing,
      0⟩ : ConcState 1).pcs 0 = Pc.establishing := by
    dsimp only
    rw [Function.update_same]
  have step3 : Step 1 "sess"
      (⟨none, some 0,
        Function.update
          (Function.update (initConc 1).pcs 0 Pc.wantLock) 0 Pc.establishing,
        0⟩ : ConcState 1)
      (⟨some "sess", none,
        Function.update
          (Function.update
            (Function.update (initConc 1).pcs 0 Pc.wantLock) 0
            Pc.establishing) 0 (Pc.done (some "sess")),
        1⟩ : ConcState 1) :=
    Step.completeEstablish 0 _ hpc2
  have hreach :
      Relation.ReflTransGen (Step 1 "sess") (initConc 1)
        (⟨some "sess", none,
          Function.update
            (Function.update
              (Function.update (initConc 1).pcs 0 Pc.wantLock) 0
              Pc.establishing) 0 (Pc.done (some "sess")),
          1⟩ : ConcState 1) :=
    Relation.ReflTransGen.head step1
      (Relation.ReflTransGen.head step2 (Relation.ReflTransGen.single step3))
  have hdone3 : ∀ i : Fin 1,
      ∃ obs, (⟨some "sess", none,
        Function.update
          (Function.update
            (Function.update (initConc 1).pcs 0 Pc.wantLock) 0
            Pc.establishing) 0 (Pc.done (some "sess")),
        1⟩ : ConcState 1).pcs i = Pc.done obs := by
    intro i
    have hi : i = 0 := Fin.eq_zero i
    subst hi
    refine ⟨some "sess", ?_⟩
    dsimp only
    rw [Function.update_same]
  have happly := singleEstablishmentUnderContention "sess" (by decide)
    (by decide) _ hreach hdone3
  exact ⟨_, hreach, hdone3, happly.1, happly.2⟩

end NerveEmail
